import Mathlib

/-!
# Verification of the device-discovery sequencer

This development embeds `VirshWrapper.get_dhcp_lease` from
`src/pytest_ansible_network_integration/defs.py` (lines 222-284) as pure Lean
functions and proves properties of the two-phase polling procedure:
the lab locator (virsh domain listing + XML dump scan) and the DHCP lease
resolver (lease-table polling).

Remote command outputs are abstracted as an environment (`VirshEnv`) mapping
each poll attempt to the textual stdout the remote commands would return at
that attempt.  The XML library call `xmltodict.parse` is abstracted as an
oracle in the environment returning either a parse failure or a parsed value
(`XmlVal`, modelling the Python dict/list/str/None values that xmltodict
produces: a repeated child element becomes a list, a single child a dict,
an absent child no key at all, and an empty element None).
-/

/-- Python exception kinds that the embedded code can raise through unguarded
dictionary/list operations. -/
inductive PyErr where
  | keyError
  | typeError
  | indexError
deriving DecidableEq, Repr

/-- Failure taxonomy of `get_dhcp_lease`, naming each `raise` site of the
source plus propagated library failures:
`locatorExhausted` = `Exception("Could not find current lab")` (line 252),
`resolverExhausted` = `Exception("Could not find IPs")` (line 276),
`ambiguousLease` = `Exception("Found more than one IP")` (line 282),
`parseError` = an exception escaping `xmltodict.parse` (line 246),
`pyErr` = a Python-level error escaping an unguarded lookup (lines 255-258). -/
inductive DiscoveryFailure where
  | locatorExhausted
  | resolverExhausted
  | ambiguousLease
  | parseError
  | pyErr (e : PyErr)
deriving DecidableEq, Repr

deriving instance DecidableEq for Except

/-- The value universe of `xmltodict.parse` results: Python dicts keyed by
strings, lists, strings and None. -/
inductive XmlVal where
  | null
  | str (s : String)
  | list (xs : List XmlVal)
  | dict (entries : List (String × XmlVal))

/-- Python truthiness of an xmltodict value (`while not current_lab` at
line 233): None and empty containers are falsy. -/
def truthy : XmlVal → Bool
  | .null => false
  | .str s => s ≠ ""
  | .list xs => !xs.isEmpty
  | .dict es => !es.isEmpty

/-- Python subscript `v[k]` with a string key: succeeds only on a dict that
holds the key (`KeyError` otherwise); lists, strings and None give a
`TypeError`. -/
def getKey (v : XmlVal) (k : String) : Except PyErr XmlVal :=
  match v with
  | .dict es =>
    match es.lookup k with
    | some w => .ok w
    | none => .error .keyError
  | _ => .error .typeError

/-- Python iteration `for x in v`: a list yields its elements, a dict its
keys, a string its characters; None is not iterable. -/
def pyIter : XmlVal → Except PyErr (List XmlVal)
  | .list xs => .ok xs
  | .dict es => .ok (es.map (fun e => XmlVal.str e.1))
  | .str s => .ok (s.data.map (fun c => XmlVal.str (String.singleton c)))
  | .null => .error .typeError

/-- Split a character list at every character satisfying `p`, keeping empty
pieces; the result is always non-empty (one piece more than separators). -/
def splitChars (p : Char → Bool) : List Char → List (List Char)
  | [] => [[]]
  | c :: rest =>
    if p c then [] :: splitChars p rest
    else
      match splitChars p rest with
      | [] => [[c]]
      | piece :: more => (c :: piece) :: more

/-- Python `str.split()` with no separator: split on whitespace runs and
drop empty tokens. -/
def pySplit (s : String) : List String :=
  ((splitChars Char.isWhitespace s.data).map String.mk).filter (fun t => t ≠ "")

/-- Python `str.splitlines()` restricted to newline-separated text: split
on the newline character, without a trailing empty line. -/
def pySplitlines (s : String) : List String :=
  let parts := splitChars (fun c => c == '\n') s.data
  (if parts.getLast? = some [] then parts.dropLast else parts).map String.mk

/-- Python `s.split("/")[0]`: the part of the string before the first
slash (source line 268: `p[4].split("/")[0]`). -/
def beforeSlash (s : String) : String :=
  String.mk (s.data.takeWhile (fun c => !(c == '/')))

/-- `re.match` of the pattern anchored at line start, one whitespace
character, then a captured run of digits (source line 237:
`re.match(r"^\s(?P<id>\d+)", line)`), on the character list of a line.
Returns the captured digit run when the line matches. -/
def idOfChars : List Char → Option String
  | [] => none
  | c :: rest =>
    if c.isWhitespace then
      let ds := rest.takeWhile Char.isDigit
      if ds = [] then none else some (String.mk ds)
    else none

/-- Candidate-ID extraction for one line of `virsh list --all` output. -/
def virshIdOfLine (line : String) : Option String :=
  idOfChars line.data

/-- Lines 237-240: collect the captured ids of all matching lines of the
domain listing. -/
def virshIds (stdout : String) : List String :=
  (pySplitlines stdout).filterMap virshIdOfLine

/-- Whether `needle` occurs as an initial segment of `hay`. -/
def charsStartWith : List Char → List Char → Bool
  | _, [] => true
  | [], _ :: _ => false
  | a :: as, b :: bs => a == b && charsStartWith as bs

/-- Whether `needle` occurs as a contiguous run anywhere in `hay`. -/
def charsContain (hay needle : List Char) : Bool :=
  charsStartWith hay needle ||
    match hay with
    | [] => false
    | _ :: t => charsContain t needle

/-- Python substring test `needle in hay` (source line 244:
`current_lab_id in stdout`). -/
def strContainsStr (hay needle : String) : Bool :=
  charsContain hay.data needle.data

/-- The remote environment seen by one `get_dhcp_lease` call: the stdout of
`sudo virsh list --all` on each locator pass, the stdout of
`sudo virsh dumpxml <id>` per pass and id, the behaviour of
`xmltodict.parse`, and the stdout of `sudo virsh net-dhcp-leases default`
on each resolver poll. -/
structure VirshEnv where
  listAll : Nat → String
  dumpxml : Nat → String → String
  parseXml : String → Except Unit XmlVal
  leasesOut : Nat → String

/-- Locator-stage outcome together with the number of full scanning passes
performed and the total units slept (`time.sleep(5)` at line 253). -/
structure LocOut where
  result : Except DiscoveryFailure XmlVal
  passes : Nat
  slept : Nat

/-- Lines 242-247: scan the candidate ids in order; at the first id whose
XML dump contains the lab id as a substring, parse the dump and stop
(the `break`).  Returns the parse outcome of that first match, if any. -/
def scanIds (env : VirshEnv) (labId : String) (n : Nat) : List String → Option (Except Unit XmlVal)
  | [] => none
  | vid :: rest =>
    if strContainsStr (env.dumpxml n vid) labId then some (env.parseXml (env.dumpxml n vid))
    else scanIds env labId n rest

/-- The locator loop of lines 229-253 (`while not current_lab`).  `attempt`
mirrors the Python counter; `fuel` is a recursion bound that the top-level
call sets to 10, kept in lockstep with `10 - attempt` so that the
`attempt == 10` raise always fires before the fuel runs out.  A parse
failure escapes immediately; a match with a falsy parse result does not
leave the loop (line 248 `if current_lab: break`). -/
def findLabAux (env : VirshEnv) (labId : String) : Nat → Nat → LocOut
  | attempt, 0 =>
    match scanIds env labId attempt (virshIds (env.listAll attempt)) with
    | some (.error _) => ⟨.error .parseError, 1, 0⟩
    | some (.ok lab) =>
      if truthy lab then ⟨.ok lab, 1, 0⟩ else ⟨.error .locatorExhausted, 1, 0⟩
    | none => ⟨.error .locatorExhausted, 1, 0⟩
  | attempt, fuel + 1 =>
    match scanIds env labId attempt (virshIds (env.listAll attempt)) with
    | some (.error _) => ⟨.error .parseError, 1, 0⟩
    | some (.ok lab) =>
      if truthy lab then ⟨.ok lab, 1, 0⟩
      else if attempt + 1 = 10 then ⟨.error .locatorExhausted, 1, 0⟩
      else
        let rest := findLabAux env labId (attempt + 1) fuel
        ⟨rest.result, rest.passes + 1, rest.slept + 5⟩
    | none =>
      if attempt + 1 = 10 then ⟨.error .locatorExhausted, 1, 0⟩
      else
        let rest := findLabAux env labId (attempt + 1) fuel
        ⟨rest.result, rest.passes + 1, rest.slept + 5⟩

/-- The lab locator as entered by `get_dhcp_lease`: attempt counter 0,
budget of 10 passes. -/
def findLab (env : VirshEnv) (labId : String) : LocOut :=
  findLabAux env labId 0 10

/-- Line 256-257 inner access: `interface["mac"]["@address"]` for one
interface value.  In xmltodict output an attribute value is a string. -/
def macOfInterface (itf : XmlVal) : Except PyErr String := do
  let mac ← getKey itf "mac"
  let addr ← getKey mac "@address"
  match addr with
  | .str s => .ok s
  | _ => .error .typeError

/-- Lines 255-258: the MAC list comprehension
`[interface["mac"]["@address"] for interface in
current_lab["domain"]["devices"]["interface"]]` with Python subscript and
iteration semantics. -/
def extractMacs (lab : XmlVal) : Except PyErr (List String) := do
  let dom ← getKey lab "domain"
  let devs ← getKey dom "devices"
  let ifs ← getKey devs "interface"
  let items ← pyIter ifs
  items.mapM macOfInterface

/-- Lines 267-271: the lease records entered into the lease dict, in input
order.  A line is split on whitespace; only a 7-field line contributes, its
key being field 2 and its value field 4 truncated at the first slash. -/
def leaseEntries (stdout : String) : List (String × String) :=
  ((pySplitlines stdout).map pySplit).filterMap
    (fun p =>
      if p.length = 7 then some (p.getD 2 "", beforeSlash (p.getD 4 ""))
      else none)

/-- Python dict lookup over the built lease records: a later record with
the same MAC overwrites an earlier one, hence lookup on the reversed list. -/
def leaseLookup (entries : List (String × String)) (mac : String) : Option String :=
  List.lookup mac entries.reverse

/-- Line 273 at poll `n`: `ips = [leases[mac] for mac in macs if mac in
leases]`, the matched IP list of the target MACs against the lease table
polled at attempt `n`. -/
def matchedAt (env : VirshEnv) (macs : List String) (n : Nat) : List String :=
  macs.filterMap (fun mac => leaseLookup (leaseEntries (env.leasesOut n)) mac)

/-- Resolver-stage outcome together with the number of lease polls
performed and the total units slept (`time.sleep(10)` at line 277). -/
structure ResOut where
  result : Except DiscoveryFailure (List String)
  polls : Nat
  slept : Nat

/-- The resolver loop of lines 262-277 (`while not ips`).  Order within one
iteration mirrors the source: poll and match, increment the counter, raise
`Could not find IPs` when the counter reaches 30 (even when the poll just
matched), otherwise sleep 10 and re-check the loop condition.  `fuel` is a
recursion bound kept in lockstep with `30 - attempt` by the top-level
call. -/
def resolveAux (env : VirshEnv) (macs : List String) : Nat → Nat → ResOut
  | attempt, 0 =>
    let ips := matchedAt env macs attempt
    if attempt + 1 = 30 then ⟨.error .resolverExhausted, 1, 0⟩
    else if ips = [] then ⟨.error .resolverExhausted, 1, 0⟩
    else ⟨.ok ips, 1, 10⟩
  | attempt, fuel + 1 =>
    let ips := matchedAt env macs attempt
    if attempt + 1 = 30 then ⟨.error .resolverExhausted, 1, 0⟩
    else if ips = [] then
      let rest := resolveAux env macs (attempt + 1) fuel
      ⟨rest.result, rest.polls + 1, rest.slept + 10⟩
    else ⟨.ok ips, 1, 10⟩

/-- The resolver loop as entered by `get_dhcp_lease`: attempt counter 0,
budget of 30 polls. -/
def resolveRun (env : VirshEnv) (macs : List String) : ResOut :=
  resolveAux env macs 0 30

/-- Lines 281-284: the post-loop cardinality check (`if len(ips) > 1:
raise Exception("Found more than one IP")`) and `return ips[0]` (whose
Python behaviour on an empty list would be an IndexError). -/
def resolveFinish (ips : List String) : Except DiscoveryFailure String :=
  if ips.length > 1 then .error .ambiguousLease
  else
    match ips with
    | [] => .error (.pyErr .indexError)
    | ip :: _ => .ok ip

/-- Resolver stage outcome: loop result passed through the cardinality
check, with poll and sleep accounting. -/
structure ResRun where
  result : Except DiscoveryFailure String
  polls : Nat
  slept : Nat

/-- The complete lease-resolver stage: the polling loop followed by the
ambiguity check and the return of the sole IP. -/
def resolveLease (env : VirshEnv) (macs : List String) : ResRun :=
  let res := resolveRun env macs
  match res.result with
  | .error e => ⟨.error e, res.polls, res.slept⟩
  | .ok ips => ⟨resolveFinish ips, res.polls, res.slept⟩

/-- Outcome of one `get_dhcp_lease` call with the observable effort
accounting of both stages. -/
structure RunOut where
  result : Except DiscoveryFailure String
  locPasses : Nat
  locSlept : Nat
  polls : Nat
  pollSlept : Nat

/-- `VirshWrapper.get_dhcp_lease` (lines 222-284): locate the lab domain,
extract its interface MAC addresses, then resolve a DHCP lease for them.
Any stage failure propagates unchanged; a failure before the resolver
leaves the poll counters at zero. -/
def get_dhcp_lease (env : VirshEnv) (labId : String) : RunOut :=
  let loc := findLab env labId
  match loc.result with
  | .error e => ⟨.error e, loc.passes, loc.slept, 0, 0⟩
  | .ok lab =>
    match extractMacs lab with
    | .error e => ⟨.error (.pyErr e), loc.passes, loc.slept, 0, 0⟩
    | .ok macs =>
      let res := resolveLease env macs
      ⟨res.result, loc.passes, loc.slept, res.polls, res.slept⟩

/-! ## Characterization lemmas for the resolver loop -/

theorem resolveAux_found (env : VirshEnv) (macs : List String) (attempt fuel : Nat)
    (h30 : attempt + 1 ≠ 30) (hne : matchedAt env macs attempt ≠ []) :
    resolveAux env macs attempt fuel = ⟨.ok (matchedAt env macs attempt), 1, 10⟩ := by
  cases fuel <;> simp [resolveAux, h30, hne]

theorem resolveAux_raise30 (env : VirshEnv) (macs : List String) (fuel : Nat) :
    resolveAux env macs 29 fuel = ⟨.error .resolverExhausted, 1, 0⟩ := by
  cases fuel <;> simp [resolveAux]

theorem resolveAux_empty_step (env : VirshEnv) (macs : List String) (attempt fuel : Nat)
    (h30 : attempt + 1 ≠ 30) (hemp : matchedAt env macs attempt = []) :
    resolveAux env macs attempt (fuel + 1) =
      ⟨(resolveAux env macs (attempt + 1) fuel).result,
       (resolveAux env macs (attempt + 1) fuel).polls + 1,
       (resolveAux env macs (attempt + 1) fuel).slept + 10⟩ := by
  simp [resolveAux, h30, hemp]

theorem resolveAux_skip (env : VirshEnv) (macs : List String) :
    ∀ (k attempt : Nat), attempt + k + 1 ≤ 30 →
      (∀ j, j < k → matchedAt env macs (attempt + j) = []) →
      resolveAux env macs attempt (30 - attempt) =
        ⟨(resolveAux env macs (attempt + k) (30 - (attempt + k))).result,
         (resolveAux env macs (attempt + k) (30 - (attempt + k))).polls + k,
         (resolveAux env macs (attempt + k) (30 - (attempt + k))).slept + 10 * k⟩ := by
  intro k
  induction k with
  | zero => intro attempt _ _; simp
  | succ k ih =>
    intro attempt hle hemp
    have h30 : attempt + 1 ≠ 30 := by omega
    have hfuel : 30 - attempt = (30 - (attempt + 1)) + 1 := by omega
    rw [hfuel, resolveAux_empty_step env macs attempt _ h30 (by simpa using hemp 0 (by omega))]
    rw [ih (attempt + 1) (by omega) (fun j hj => by
      have hj1 := hemp (j + 1) (by omega)
      have harr : attempt + (j + 1) = attempt + 1 + j := by omega
      rw [harr] at hj1
      exact hj1)]
    have harr : attempt + 1 + k = attempt + (k + 1) := by omega
    rw [harr]
    simp [Nat.mul_succ, Nat.add_assoc]

theorem resolveRun_found (env : VirshEnv) (macs : List String) (k : Nat) (hk : k + 1 < 30)
    (hemp : ∀ j, j < k → matchedAt env macs j = [])
    (hne : matchedAt env macs k ≠ []) :
    resolveRun env macs = ⟨.ok (matchedAt env macs k), k + 1, 10 * (k + 1)⟩ := by
  have h := resolveAux_skip env macs k 0 (by omega) (fun j hj => by simpa using hemp j hj)
  simp only [Nat.zero_add, Nat.sub_zero] at h
  rw [resolveAux_found env macs k _ (by omega) hne] at h
  unfold resolveRun
  rw [h]
  simp [Nat.mul_succ]
  omega

theorem resolveRun_exhausts (env : VirshEnv) (macs : List String)
    (hemp : ∀ j, j < 29 → matchedAt env macs j = []) :
    resolveRun env macs = ⟨.error .resolverExhausted, 30, 290⟩ := by
  have h := resolveAux_skip env macs 29 0 (by omega) (fun j hj => by simpa using hemp j hj)
  simp only [Nat.zero_add, Nat.sub_zero] at h
  rw [resolveAux_raise30 env macs] at h
  unfold resolveRun
  rw [h]

theorem resolveLease_found (env : VirshEnv) (macs : List String) (k : Nat) (hk : k + 1 < 30)
    (hemp : ∀ j, j < k → matchedAt env macs j = [])
    (hne : matchedAt env macs k ≠ []) :
    resolveLease env macs = ⟨resolveFinish (matchedAt env macs k), k + 1, 10 * (k + 1)⟩ := by
  simp [resolveLease, resolveRun_found env macs k hk hemp hne]

theorem resolveLease_exhausts (env : VirshEnv) (macs : List String)
    (hemp : ∀ j, j < 29 → matchedAt env macs j = []) :
    resolveLease env macs = ⟨.error .resolverExhausted, 30, 290⟩ := by
  simp [resolveLease, resolveRun_exhausts env macs hemp]

/-! ## Characterization lemmas for the locator loop -/

theorem scanIds_none (env : VirshEnv) (labId : String) (n : Nat) :
    ∀ ids : List String, (∀ vid ∈ ids, strContainsStr (env.dumpxml n vid) labId = false) →
      scanIds env labId n ids = none
  | [], _ => rfl
  | v :: rest, h => by
    simp [scanIds, h v (by simp)]
    exact scanIds_none env labId n rest (fun vid hv => h vid (by simp [hv]))

theorem findLabAux_parseErr (env : VirshEnv) (labId : String) (attempt fuel : Nat) (e : Unit)
    (h : scanIds env labId attempt (virshIds (env.listAll attempt)) = some (.error e)) :
    findLabAux env labId attempt fuel = ⟨.error .parseError, 1, 0⟩ := by
  cases fuel <;> simp [findLabAux, h]

theorem findLabAux_found (env : VirshEnv) (labId : String) (attempt fuel : Nat) (lab : XmlVal)
    (h : scanIds env labId attempt (virshIds (env.listAll attempt)) = some (.ok lab))
    (ht : truthy lab = true) :
    findLabAux env labId attempt fuel = ⟨.ok lab, 1, 0⟩ := by
  cases fuel <;> simp [findLabAux, h, ht]

theorem findLabAux_raise10 (env : VirshEnv) (labId : String) (fuel : Nat)
    (h : scanIds env labId 9 (virshIds (env.listAll 9)) = none) :
    findLabAux env labId 9 fuel = ⟨.error .locatorExhausted, 1, 0⟩ := by
  cases fuel <;> simp [findLabAux, h]

theorem findLabAux_none_step (env : VirshEnv) (labId : String) (attempt fuel : Nat)
    (h10 : attempt + 1 ≠ 10)
    (h : scanIds env labId attempt (virshIds (env.listAll attempt)) = none) :
    findLabAux env labId attempt (fuel + 1) =
      ⟨(findLabAux env labId (attempt + 1) fuel).result,
       (findLabAux env labId (attempt + 1) fuel).passes + 1,
       (findLabAux env labId (attempt + 1) fuel).slept + 5⟩ := by
  simp [findLabAux, h, h10]

theorem findLabAux_skip (env : VirshEnv) (labId : String) :
    ∀ (k attempt : Nat), attempt + k + 1 ≤ 10 →
      (∀ j, j < k → scanIds env labId (attempt + j) (virshIds (env.listAll (attempt + j))) = none) →
      findLabAux env labId attempt (10 - attempt) =
        ⟨(findLabAux env labId (attempt + k) (10 - (attempt + k))).result,
         (findLabAux env labId (attempt + k) (10 - (attempt + k))).passes + k,
         (findLabAux env labId (attempt + k) (10 - (attempt + k))).slept + 5 * k⟩ := by
  intro k
  induction k with
  | zero => intro attempt _ _; simp
  | succ k ih =>
    intro attempt hle hemp
    have h10 : attempt + 1 ≠ 10 := by omega
    have hfuel : 10 - attempt = (10 - (attempt + 1)) + 1 := by omega
    rw [hfuel, findLabAux_none_step env labId attempt _ h10 (by simpa using hemp 0 (by omega))]
    rw [ih (attempt + 1) (by omega) (fun j hj => by
      have hj1 := hemp (j + 1) (by omega)
      have harr : attempt + (j + 1) = attempt + 1 + j := by omega
      rw [harr] at hj1
      exact hj1)]
    have harr : attempt + 1 + k = attempt + (k + 1) := by omega
    rw [harr]
    simp [Nat.mul_succ, Nat.add_assoc]

theorem findLab_exhausts (env : VirshEnv) (labId : String)
    (h : ∀ n, n < 10 → ∀ vid ∈ virshIds (env.listAll n),
      strContainsStr (env.dumpxml n vid) labId = false) :
    findLab env labId = ⟨.error .locatorExhausted, 10, 45⟩ := by
  have hs := findLabAux_skip env labId 9 0 (by omega) (fun j hj => by
    simpa using scanIds_none env labId j _ (h j (by omega)))
  simp only [Nat.zero_add, Nat.sub_zero] at hs
  rw [findLabAux_raise10 env labId _ (scanIds_none env labId 9 _ (h 9 (by omega)))] at hs
  unfold findLab
  rw [hs]

theorem findLab_parseErr (env : VirshEnv) (labId : String) (k : Nat) (hk : k < 10)
    (hemp : ∀ j, j < k → scanIds env labId j (virshIds (env.listAll j)) = none)
    (herr : scanIds env labId k (virshIds (env.listAll k)) = some (.error ())) :
    findLab env labId = ⟨.error .parseError, k + 1, 5 * k⟩ := by
  have hs := findLabAux_skip env labId k 0 (by omega) (fun j hj => by simpa using hemp j hj)
  simp only [Nat.zero_add, Nat.sub_zero] at hs
  rw [findLabAux_parseErr env labId k _ () herr] at hs
  unfold findLab
  rw [hs]
  simp
  omega

/-! ## Unfolding lemmas for the sequencer -/

theorem get_dhcp_lease_locErr (env : VirshEnv) (labId : String) (e : DiscoveryFailure)
    (h : (findLab env labId).result = .error e) :
    get_dhcp_lease env labId =
      ⟨.error e, (findLab env labId).passes, (findLab env labId).slept, 0, 0⟩ := by
  simp [get_dhcp_lease, h]

theorem get_dhcp_lease_macsErr (env : VirshEnv) (labId : String) (lab : XmlVal) (e : PyErr)
    (hloc : (findLab env labId).result = .ok lab)
    (hm : extractMacs lab = .error e) :
    get_dhcp_lease env labId =
      ⟨.error (.pyErr e), (findLab env labId).passes, (findLab env labId).slept, 0, 0⟩ := by
  simp [get_dhcp_lease, hloc, hm]

theorem get_dhcp_lease_macs (env : VirshEnv) (labId : String) (lab : XmlVal) (macs : List String)
    (hloc : (findLab env labId).result = .ok lab)
    (hm : extractMacs lab = .ok macs) :
    get_dhcp_lease env labId =
      ⟨(resolveLease env macs).result, (findLab env labId).passes, (findLab env labId).slept,
       (resolveLease env macs).polls, (resolveLease env macs).slept⟩ := by
  simp [get_dhcp_lease, hloc, hm]

/-! ## Spec-side definitions (stated from the spec words, for comparison) -/

/-- The claim C5 pattern, stated from the spec words: line start, one or
more whitespace characters, then digits. -/
def specIdMatches (line : String) : Bool :=
  let ws := line.data.takeWhile Char.isWhitespace
  !ws.isEmpty &&
    (match line.data.drop ws.length with
     | c :: _ => c.isDigit
     | [] => false)

/-- The amended C5 pattern, stated from the amended claim words: exactly
one whitespace character, then at least one digit. -/
def amendedIdMatches (line : String) : Bool :=
  match line.data with
  | c1 :: c2 :: _ => c1.isWhitespace && c2.isDigit
  | _ => false

/-- The lease-record extraction stated from the spec words: split the line
on whitespace; exactly seven fields make a record whose key is field index
2 and whose value is field index 4 truncated at the first slash; any other
field count contributes nothing. -/
def specLeaseRecord (line : String) : Option (String × String) :=
  let p := pySplit line
  if p.length = 7 then some (p.getD 2 "", beforeSlash (p.getD 4 "")) else none

/-! ## Concrete environments used by closed theorems -/

/-- The XML dump of domain 2 in scenario A; it contains the lab id
`abc123` as a substring. -/
def xmlA2 : String := "<domain><name>abc123-lab</name><devices/></domain>"

/-- The parse result for domain 2 in scenario A: two interfaces with MAC
addresses AA:BB and CC:DD, in xmltodict shape. -/
def labA : XmlVal :=
  .dict [("domain", .dict [("name", .str "abc123-lab"),
    ("devices", .dict [("interface",
      .list [.dict [("mac", .dict [("@address", .str "AA:BB")])],
             .dict [("mac", .dict [("@address", .str "CC:DD")])]])])])]

/-- Scenario A environment: domain listing yields ids 1, 2, 3; only the
dump of domain 2 contains `abc123`; the lease table is empty on the first
two polls and maps CC:DD to 10.0.0.5/24 on the third. -/
def envA : VirshEnv where
  listAll := fun _ => " 1 one running\n 2 two running\n 3 three running"
  dumpxml := fun _ vid =>
    if vid = "1" then "<domain><name>one</name></domain>"
    else if vid = "2" then xmlA2
    else "<domain><name>three</name></domain>"
  parseXml := fun s => if s = xmlA2 then .ok labA else .error ()
  leasesOut := fun n =>
    if n = 2 then "2024-01-01 00:00:00 CC:DD ipv4 10.0.0.5/24 host client" else ""

/-- The two target MACs used by the resolver-level concrete environments. -/
def macsTwo : List String := ["AA:BB", "CC:DD"]

/-- Environment whose lease table is empty on polls 0 through 28 and maps
both target MACs to two different IPs exactly on poll 29 (the 30th). -/
def envC2x : VirshEnv where
  listAll := fun _ => " 1 one"
  dumpxml := fun _ _ => "<domain>LAB2</domain>"
  parseXml := fun _ => .ok labA
  leasesOut := fun n =>
    if n = 29 then "a b AA:BB d 10.0.0.7/24 f g\na b CC:DD d 10.0.0.8/24 f g" else ""

/-- Environment whose lease table maps both target MACs to two different
IPs on every poll, in particular on the first. -/
def envC2w : VirshEnv where
  listAll := fun _ => " 1 one"
  dumpxml := fun _ _ => "<domain>LAB2</domain>"
  parseXml := fun _ => .ok labA
  leasesOut := fun _ => "a b AA:BB d 10.0.0.7/24 f g\na b CC:DD d 10.0.0.8/24 f g"

/-- Environment whose lease table maps CC:DD to 10.0.0.5/24 already on the
first poll. -/
def envC3x : VirshEnv where
  listAll := fun _ => " 1 one"
  dumpxml := fun _ _ => ""
  parseXml := fun _ => .error ()
  leasesOut := fun _ => "a b CC:DD d 10.0.0.5/24 f g"

/-- Environment in which no domain XML dump ever contains the target lab
id. -/
def envC4 : VirshEnv where
  listAll := fun _ => " 1 one running"
  dumpxml := fun _ _ => "<domain><name>nolab</name></domain>"
  parseXml := fun _ => .error ()
  leasesOut := fun _ => ""

/-- An xmltodict parse result whose devices dict declares no interface
element (xmltodict omits the key entirely in that case). -/
def labC7 : XmlVal :=
  .dict [("domain", .dict [("devices", .dict [("disk", .str "hd")])])]

/-- Environment whose matched domain parses to `labC7` (zero interface
elements). -/
def envC7 : VirshEnv where
  listAll := fun _ => " 1 one"
  dumpxml := fun _ _ => "<domain>LAB7</domain>"
  parseXml := fun _ => .ok labC7
  leasesOut := fun _ => ""

/-- Environment whose first scanned dump contains the lab id but fails
structured parsing. -/
def envC8 : VirshEnv where
  listAll := fun _ => " 1 one"
  dumpxml := fun _ _ => "<domain>LAB8</domain>"
  parseXml := fun _ => .error ()
  leasesOut := fun _ => ""

/-- Environment in which the lease table first matches a target MAC
exactly on poll 29 (the 30th poll). -/
def envC9 : VirshEnv where
  listAll := fun _ => " 1 one"
  dumpxml := fun _ _ => "<domain>LAB9abc123</domain>"
  parseXml := fun _ => .ok labA
  leasesOut := fun n => if n = 29 then "a b CC:DD d 10.0.0.5/24 f g" else ""

/-- Environment whose lease table maps both target MACs to the same IP
string on the first poll. -/
def envC10 : VirshEnv where
  listAll := fun _ => " 1 one"
  dumpxml := fun _ _ => "<domain>LAB10abc123</domain>"
  parseXml := fun _ => .ok labA
  leasesOut := fun _ => "a b AA:BB d 10.0.0.5/24 f g\na b CC:DD d 10.0.0.5/24 f g"

/-! ## Claim theorems -/

/-- C1: End-to-end discovery, scenario A.  With candidate domain ids 1, 2
and 3, only domain 2 matching the lab id `abc123` and carrying interfaces
AA:BB and CC:DD, and a lease table empty on the first two polls and
mapping CC:DD to 10.0.0.5/24 on the third, `get_dhcp_lease` returns the
string 10.0.0.5 with the CIDR suffix stripped after exactly 2 empty lease
polls (3 polls in total). -/
theorem c1_scenarioA_discovery :
    virshIds (envA.listAll 0) = ["1", "2", "3"] ∧
    extractMacs labA = .ok ["AA:BB", "CC:DD"] ∧
    matchedAt envA ["AA:BB", "CC:DD"] 0 = [] ∧
    matchedAt envA ["AA:BB", "CC:DD"] 1 = [] ∧
    (get_dhcp_lease envA "abc123").result = .ok "10.0.0.5" ∧
    (get_dhcp_lease envA "abc123").polls = 3 :=
  ⟨by decide, by decide, by decide, by decide, by decide, by decide⟩

/-- C4: when no domain XML dump ever contains the target lab id, the
locator performs exactly 10 full scanning passes separated by 5-unit
pauses (9 pauses, 45 units in total), raises the locator-exhausted
failure, and never reaches the lease-polling stage. -/
theorem c4_locator_exhausts (env : VirshEnv) (labId : String)
    (h : ∀ n, n < 10 → ∀ vid ∈ virshIds (env.listAll n),
      strContainsStr (env.dumpxml n vid) labId = false) :
    (get_dhcp_lease env labId).result = .error .locatorExhausted ∧
    (get_dhcp_lease env labId).locPasses = 10 ∧
    (get_dhcp_lease env labId).locSlept = 45 ∧
    (get_dhcp_lease env labId).polls = 0 := by
  have hf := findLab_exhausts env labId h
  have hres : (findLab env labId).result = .error .locatorExhausted := by rw [hf]
  rw [get_dhcp_lease_locErr env labId _ hres, hf]
  exact ⟨rfl, rfl, rfl, rfl⟩

/-- Witness for C4 on a concrete environment. -/
theorem c4_witness :
    (get_dhcp_lease envC4 "abc123").result = .error .locatorExhausted ∧
    (get_dhcp_lease envC4 "abc123").locPasses = 10 ∧
    (get_dhcp_lease envC4 "abc123").locSlept = 45 ∧
    (get_dhcp_lease envC4 "abc123").polls = 0 :=
  c4_locator_exhausts envC4 "abc123" (by decide)

/-- C8: when the first scanned dump that contains the lab id as a
substring fails structured XML parsing, the failure is fatal: it
propagates out of `get_dhcp_lease` after that pass with no further locator
pass and no lease poll. -/
theorem c8_parse_error_fatal (env : VirshEnv) (labId : String) (k : Nat) (hk : k < 10)
    (hemp : ∀ j, j < k → scanIds env labId j (virshIds (env.listAll j)) = none)
    (herr : scanIds env labId k (virshIds (env.listAll k)) = some (.error ())) :
    (get_dhcp_lease env labId).result = .error .parseError ∧
    (get_dhcp_lease env labId).locPasses = k + 1 ∧
    (get_dhcp_lease env labId).polls = 0 := by
  have hf := findLab_parseErr env labId k hk hemp herr
  have hres : (findLab env labId).result = .error .parseError := by rw [hf]
  rw [get_dhcp_lease_locErr env labId _ hres, hf]
  exact ⟨rfl, rfl, rfl⟩

/-- Witness for C8 on a concrete environment with the parse failure on the
first pass. -/
theorem c8_witness :
    (get_dhcp_lease envC8 "LAB8").result = .error .parseError ∧
    (get_dhcp_lease envC8 "LAB8").locPasses = 1 ∧
    (get_dhcp_lease envC8 "LAB8").polls = 0 :=
  c8_parse_error_fatal envC8 "LAB8" 0 (by omega)
    (fun j hj => absurd hj (Nat.not_lt_zero j)) rfl

/-- C9: when the lease table first yields a non-empty matched set exactly
on the 30th poll, `get_dhcp_lease` still raises the exhaustion failure
(Could not find IPs) after 30 polls instead of returning the found IP: the
counter is incremented and compared against 30 before the loop condition
re-checks the matched set. -/
theorem c9_thirtieth_poll_exhausts (env : VirshEnv) (labId : String) (lab : XmlVal)
    (macs : List String)
    (hloc : (findLab env labId).result = .ok lab)
    (hm : extractMacs lab = .ok macs)
    (hemp : ∀ j, j < 29 → matchedAt env macs j = [])
    (hne : matchedAt env macs 29 ≠ []) :
    (get_dhcp_lease env labId).result = .error .resolverExhausted ∧
    (get_dhcp_lease env labId).polls = 30 := by
  rw [get_dhcp_lease_macs env labId lab macs hloc hm, resolveLease_exhausts env macs hemp]
  exact ⟨rfl, rfl⟩

/-- Witness for C9 on a concrete environment whose lease table first
matches on poll 29. -/
theorem c9_witness :
    (get_dhcp_lease envC9 "LAB9").result = .error .resolverExhausted ∧
    (get_dhcp_lease envC9 "LAB9").polls = 30 :=
  c9_thirtieth_poll_exhausts envC9 "LAB9" labA ["AA:BB", "CC:DD"] rfl rfl
    (by decide) (by decide)

/-- C10: the ambiguity check counts matched MAC entries without
deduplication: whenever two or more target MACs are present in the first
polled lease table, `get_dhcp_lease` raises the more-than-one-IP failure,
even when every matched entry carries the same IP string. -/
theorem c10_ambiguity_counts_entries (env : VirshEnv) (labId : String) (lab : XmlVal)
    (macs : List String)
    (hloc : (findLab env labId).result = .ok lab)
    (hm : extractMacs lab = .ok macs)
    (h2 : 2 ≤ (matchedAt env macs 0).length)
    (hsame : ∀ ip ∈ matchedAt env macs 0, ip = (matchedAt env macs 0).headD "") :
    (get_dhcp_lease env labId).result = .error .ambiguousLease ∧
    (get_dhcp_lease env labId).polls = 1 := by
  have hne : matchedAt env macs 0 ≠ [] := by
    intro h0
    rw [h0] at h2
    simp at h2
  rw [get_dhcp_lease_macs env labId lab macs hloc hm,
    resolveLease_found env macs 0 (by omega) (fun j hj => absurd hj (Nat.not_lt_zero j)) hne]
  refine ⟨?_, rfl⟩
  show resolveFinish (matchedAt env macs 0) = _
  simp only [resolveFinish]
  rw [if_pos (by omega : (matchedAt env macs 0).length > 1)]

/-- Witness for C10 on a concrete environment where both target MACs map
to the same IP string on the first poll. -/
theorem c10_witness :
    (get_dhcp_lease envC10 "abc123").result = .error .ambiguousLease ∧
    (get_dhcp_lease envC10 "abc123").polls = 1 :=
  c10_ambiguity_counts_entries envC10 "abc123" labA macsTwo rfl rfl
    (by decide) (by decide)

/-- C2 counterexample: a reachable lease poll (the 30th) yields a matched
set with two elements, yet the resolver raises the exhaustion failure
(Could not find IPs), not the AmbiguousLease-kind failure the claim
demands for every multi-match poll. -/
theorem c2_counterexample :
    (matchedAt envC2x macsTwo 29).length = 2 ∧
    (resolveLease envC2x macsTwo).polls = 30 ∧
    (resolveLease envC2x macsTwo).result = .error .resolverExhausted ∧
    (resolveLease envC2x macsTwo).result ≠ .error .ambiguousLease :=
  ⟨by decide, by decide, by decide, by decide⟩

/-- C2 (amended): a poll whose matched set has two or more elements stops
the polling immediately (the poll count is the index of that poll plus one) and
fails; the failure kind is AmbiguousLease on polls 1 through 29 but the
exhaustion failure on the 30th poll, and in no case is one of the
candidate IPs returned. -/
theorem c2_amended_multi_match_stops (env : VirshEnv) (macs : List String) (k : Nat)
    (hk : k ≤ 29)
    (hemp : ∀ j, j < k → matchedAt env macs j = [])
    (h2 : 2 ≤ (matchedAt env macs k).length) :
    (resolveLease env macs).result =
      (if k = 29 then .error .resolverExhausted else .error .ambiguousLease) ∧
    (resolveLease env macs).polls = k + 1 := by
  by_cases h29 : k = 29
  · subst h29
    rw [resolveLease_exhausts env macs hemp]
    exact ⟨by simp, rfl⟩
  · have hne : matchedAt env macs k ≠ [] := by
      intro h0
      rw [h0] at h2
      simp at h2
    rw [resolveLease_found env macs k (by omega) hemp hne]
    refine ⟨?_, rfl⟩
    show resolveFinish (matchedAt env macs k) = _
    rw [if_neg h29]
    simp only [resolveFinish]
    rw [if_pos (by omega : (matchedAt env macs k).length > 1)]

/-- Witness for the amended C2 on a concrete environment with a
multi-match on the first poll. -/
theorem c2_amended_witness :
    (resolveLease envC2w macsTwo).result = .error .ambiguousLease ∧
    (resolveLease envC2w macsTwo).polls = 1 := by
  have h := c2_amended_multi_match_stops envC2w macsTwo 0 (by omega)
    (fun j hj => absurd hj (Nat.not_lt_zero j)) (by decide)
  simpa using h

/-- C3 counterexample: at a concrete environment the very first poll
matches a single MAC; the claim demands that such a poll proceeds to the
return without a further sleep, but the resolver still sleeps 10 units
after the successful poll. -/
theorem c3_counterexample :
    (matchedAt envC3x ["CC:DD"] 0).length = 1 ∧
    (resolveLease envC3x ["CC:DD"]).result = .ok "10.0.0.5" ∧
    (resolveLease envC3x ["CC:DD"]).polls = 1 ∧
    (resolveLease envC3x ["CC:DD"]).slept = 10 :=
  ⟨by decide, by decide, by decide, by decide⟩

/-- C3 (amended): an empty matched set sleeps 10 units and retries, for up
to 30 polls, and 29 consecutive empty polls force the exhaustion failure
on the 30th with 290 units slept in total; a poll with a non-empty matched
set (before the 30th) performs no further poll, but still sleeps once more
(10 units, for 10 times the poll count in total) before the loop exits to
the ambiguity check and return. -/
theorem c3_amended_sleep_and_retry :
    (∀ (env : VirshEnv) (macs : List String) (k : Nat), k + 1 < 30 →
      (∀ j, j < k → matchedAt env macs j = []) →
      matchedAt env macs k ≠ [] →
      (resolveLease env macs).result = resolveFinish (matchedAt env macs k) ∧
      (resolveLease env macs).polls = k + 1 ∧
      (resolveLease env macs).slept = 10 * (k + 1)) ∧
    (∀ (env : VirshEnv) (macs : List String),
      (∀ j, j < 29 → matchedAt env macs j = []) →
      (resolveLease env macs).result = .error .resolverExhausted ∧
      (resolveLease env macs).polls = 30 ∧
      (resolveLease env macs).slept = 290) := by
  constructor
  · intro env macs k hk hemp hne
    rw [resolveLease_found env macs k hk hemp hne]
    exact ⟨rfl, rfl, rfl⟩
  · intro env macs hemp
    rw [resolveLease_exhausts env macs hemp]
    exact ⟨rfl, rfl, rfl⟩

/-- Witness for the amended C3: a match on the first poll returns after
one poll with 10 units slept. -/
theorem c3_amended_witness :
    (resolveLease envC3x ["CC:DD"]).polls = 1 ∧
    (resolveLease envC3x ["CC:DD"]).slept = 10 := by
  have h := c3_amended_sleep_and_retry.1 envC3x ["CC:DD"] 0 (by omega)
    (fun j hj => absurd hj (Nat.not_lt_zero j)) (by decide)
  exact ⟨h.2.1, by simpa using h.2.2⟩

/-- C5 counterexample: the line with two leading spaces before the digits
matches the claim pattern (one or more whitespace characters then digits)
but contributes no candidate id in the code, whose pattern accepts exactly
one whitespace character; in a full listing such a line is dropped. -/
theorem c5_counterexample :
    specIdMatches "  7 three running" = true ∧
    virshIdOfLine "  7 three running" = none ∧
    virshIds " 1 one running\n  7 three running" = ["1"] :=
  ⟨by decide, by decide, by decide⟩

/-- C5 (amended): a line contributes a candidate domain id if and only if
its first character is a whitespace character and its second character is
a digit (line start, exactly one whitespace character, then digits); every
other line, including headers, separators, and lines with two or more
leading whitespace characters, contributes nothing. -/
theorem c5_amended_line_pattern (line : String) :
    (virshIdOfLine line).isSome = amendedIdMatches line := by
  unfold virshIdOfLine amendedIdMatches
  cases hd : line.data with
  | nil => simp [idOfChars]
  | cons c1 tail =>
    cases tail with
    | nil =>
      by_cases h1 : c1.isWhitespace <;> simp [idOfChars, h1]
    | cons c2 rest =>
      by_cases h1 : c1.isWhitespace
      · by_cases h2 : c2.isDigit <;> simp [idOfChars, h1, h2, List.takeWhile]
      · simp [idOfChars, h1]

/-- C6: a lease-listing line is entered into the MAC-to-IP record list
exactly when it splits on whitespace into exactly 7 fields, with key field
index 2 and value field index 4 truncated at the first slash; in
particular a 6-field line and an 8-field line contribute nothing. -/
theorem c6_lease_record_shape :
    (∀ stdout : String,
      leaseEntries stdout = (pySplitlines stdout).filterMap specLeaseRecord) ∧
    leaseEntries "t1 t2 m3 t4 i5 t6" = [] ∧
    leaseEntries "t1 t2 m3 t4 i5 t6 t7 t8" = [] ∧
    leaseEntries "t1 t2 AA:BB t4 10.0.0.9/24 t6 t7" = [("AA:BB", "10.0.0.9")] := by
  refine ⟨fun stdout => ?_, by decide, by decide, by decide⟩
  unfold leaseEntries
  rw [List.filterMap_map]
  rfl

/-- C7 counterexample: on a matched domain whose parsed XML declares zero
interface elements (xmltodict then has no interface key under devices),
MAC extraction does not yield an empty MAC set: it fails with a
KeyError-kind lookup failure, `get_dhcp_lease` crashes with that failure
and the lease resolver performs zero polls instead of running to its retry
exhaustion. -/
theorem c7_counterexample :
    extractMacs labC7 = .error .keyError ∧
    (get_dhcp_lease envC7 "LAB7").result = .error (.pyErr .keyError) ∧
    (get_dhcp_lease envC7 "LAB7").polls = 0 :=
  ⟨by decide, by decide, by decide⟩

/-- C7 (amended): when the matched domain's parse result has no interface
entry under domain-devices (the xmltodict representation of zero declared
network-interface elements), MAC extraction raises a KeyError-kind lookup
failure which propagates out of `get_dhcp_lease` before any lease poll;
the lease-resolver stage is never reached. -/
theorem c7_amended_zero_interfaces_crash (env : VirshEnv) (labId : String)
    (ds : List (String × XmlVal))
    (hloc : (findLab env labId).result =
      .ok (.dict [("domain", .dict [("devices", .dict ds)])]))
    (hno : ds.lookup "interface" = none) :
    (get_dhcp_lease env labId).result = .error (.pyErr .keyError) ∧
    (get_dhcp_lease env labId).polls = 0 := by
  have h1 : extractMacs (.dict [("domain", .dict [("devices", .dict ds)])]) =
      Except.bind (getKey (.dict ds) "interface")
        (fun ifs => Except.bind (pyIter ifs)
          (fun items => items.mapM macOfInterface)) := rfl
  have hm : extractMacs (.dict [("domain", .dict [("devices", .dict ds)])]) =
      .error .keyError := by
    rw [h1]
    simp [getKey, hno, Except.bind]
  rw [get_dhcp_lease_macsErr env labId _ _ hloc hm]
  exact ⟨rfl, rfl⟩

/-- Witness for the amended C7 on a concrete environment whose devices
dict holds only a disk entry. -/
theorem c7_amended_witness :
    (get_dhcp_lease envC7 "LAB7").result = .error (.pyErr .keyError) ∧
    (get_dhcp_lease envC7 "LAB7").polls = 0 :=
  c7_amended_zero_interfaces_crash envC7 "LAB7" [("disk", .str "hd")] rfl rfl
